import Mathlib

/-!
Verification development for the haptic UDP control system:
a shallow embedding of the node's reactive loop (src/haptic/main.py)
and of the controller's broadcast helpers (src/haptic/haptic_client.py),
together with theorems settling the specification's claims about them.

Python floats are modelled as rationals (the code performs only
comparisons, clamping and one truncating multiplication, all exact on
the inputs the protocol deals in); MicroPython millisecond tick values
are naturals taken modulo the tick period 2^30, with tick addition and
signed tick difference modelled after time.ticks_add / time.ticks_diff.
-/

/-- A JSON value as produced by ujson.loads / json.loads. Objects keep
their key-value pairs in document order; a duplicate key is resolved by
lookup taking the last occurrence, as the Python parsers do. -/
inductive JVal where
  | jnull
  | jbool (b : Bool)
  | jint (n : Int)
  | jfloat (q : ℚ)
  | jstr (s : String)
  | jarr (xs : List JVal)
  | jobj (kvs : List (String × JVal))

/-- Python dict lookup `msg.get(k)` on the pair list of a JSON object:
the last binding of the key wins, absence gives none. -/
def objGet (kvs : List (String × JVal)) (k : String) : Option JVal :=
  kvs.foldl (fun acc p => if p.1 = k then some p.2 else acc) none

/-- Python `msg.get(k, dflt)`. -/
def objGetD (kvs : List (String × JVal)) (k : String) (dflt : JVal) : JVal :=
  (objGet kvs k).getD dflt

/-- Python `v == s` for a JSON value `v` and a string constant `s`:
true exactly when `v` is that string. -/
def jvalEqStr (v : JVal) (s : String) : Bool :=
  match v with
  | JVal.jstr t => t = s
  | _ => false

/-- Python truthiness of a JSON value. -/
def pyTruthy (v : JVal) : Bool :=
  match v with
  | JVal.jnull => false
  | JVal.jbool b => b
  | JVal.jint n => n ≠ 0
  | JVal.jfloat q => q ≠ 0
  | JVal.jstr s => s ≠ ""
  | JVal.jarr xs => ¬ xs.isEmpty
  | JVal.jobj kvs => ¬ kvs.isEmpty

/-- Truthiness of `msg.get(k)`: an absent key yields None, which is falsy. -/
def pyTruthyOpt (v : Option JVal) : Bool :=
  match v with
  | none => false
  | some w => pyTruthy w

/-- Value of a decimal digit character. -/
def digitVal (c : Char) : Option Nat :=
  if '0' ≤ c ∧ c ≤ '9' then some (c.toNat - '0'.toNat) else none

/-- Accumulating decimal parse of a digit list; fails on any non-digit. -/
def parseDigitsAux : List Char → Nat → Option Nat
  | [], acc => some acc
  | c :: cs, acc =>
    match digitVal c with
    | none => none
    | some d => parseDigitsAux cs (acc * 10 + d)

/-- Parse a non-empty all-digit character list as a natural number. -/
def parseNatChars (cs : List Char) : Option Nat :=
  match cs with
  | [] => none
  | _ => parseDigitsAux cs 0

/-- Python `int(str)`: optional sign then decimal digits; anything else
(e.g. "abc", "1.5", "") raises ValueError, modelled as none. -/
def parseIntStr (s : String) : Option Int :=
  match s.toList with
  | '-' :: rest => (parseNatChars rest).map (fun n => -(n : Int))
  | cs => (parseNatChars cs).map (fun n => (n : Int))

/-- Unsigned decimal-literal body of Python `float(str)`:
digits, optionally a dot and more digits (at least one digit in all). -/
def parseFloatChars (cs : List Char) : Option ℚ :=
  let ip := cs.takeWhile (fun c => c ≠ '.')
  match cs.dropWhile (fun c => c ≠ '.') with
  | [] => (parseNatChars ip).map (fun n => (n : ℚ))
  | _ :: frac =>
    if ip.isEmpty && frac.isEmpty then none
    else
      match (if ip.isEmpty then some 0 else parseNatChars ip),
            (if frac.isEmpty then some 0 else parseNatChars frac) with
      | some n, some f => some ((n : ℚ) + (f : ℚ) / (10 : ℚ) ^ frac.length)
      | _, _ => none

/-- Python `float(str)` on decimal literals (exponent and inf/nan forms,
which the protocol never uses, are modelled as failures too). -/
def parseFloatStr (s : String) : Option ℚ :=
  match s.toList with
  | '-' :: rest => (parseFloatChars rest).map (fun q => -q)
  | cs => parseFloatChars cs

/-- Truncation toward zero, the conversion Python `int()` applies to a float. -/
def pyTrunc (q : ℚ) : Int :=
  if q < 0 then -⌊-q⌋ else ⌊q⌋

/-- Python `int(v)` on a JSON value: ints pass through, floats truncate
toward zero, booleans become 0/1, strings must parse as an integer
literal; anything else (None, lists, objects) raises (none). -/
def pyInt (v : JVal) : Option Int :=
  match v with
  | JVal.jint n => some n
  | JVal.jfloat q => some (pyTrunc q)
  | JVal.jbool b => some (if b then 1 else 0)
  | JVal.jstr s => parseIntStr s
  | _ => none

/-- Python `float(v)` on a JSON value. -/
def pyFloat (v : JVal) : Option ℚ :=
  match v with
  | JVal.jint n => some (n : ℚ)
  | JVal.jfloat q => some q
  | JVal.jbool b => some (if b then 1 else 0)
  | JVal.jstr s => parseFloatStr s
  | _ => none

/-- MicroPython tick period: ticks wrap modulo 2^30. -/
def TICKS_PERIOD : Nat := 2 ^ 30

/-- time.ticks_add over a non-negative delta. -/
def ticksAddN (t d : Nat) : Nat :=
  (t + d) % TICKS_PERIOD

/-- time.ticks_diff: signed ring difference of two tick values. -/
def ticksDiff (a b : Nat) : Int :=
  ((a : Int) - (b : Int) + (TICKS_PERIOD / 2 : Nat)) % (TICKS_PERIOD : Nat) -
    (TICKS_PERIOD / 2 : Nat)

/-- Node runtime state: the PWM duty value written to the motor pin and
the auto-stop deadline `active_until_ms` (0 encodes "inactive"). -/
structure NodeState where
  duty : Nat
  activeUntilMs : Nat
deriving DecidableEq

/-- Node-side configuration and network identity: device_id and token
from config.json, the address reported in ping replies, and whether
station association succeeded (else the node runs its own access point). -/
structure Env where
  deviceId : String
  token : String
  ipAddr : String
  sta : Bool
deriving DecidableEq

/-- Computed as `mode = "STA" if sta else "AP"` at startup. -/
def modeStr (sta : Bool) : String :=
  if sta then "STA" else "AP"

/-- The ping reply payload `{"id":…,"ip":…,"mode":…,"ok":True}`. -/
structure Reply where
  id : String
  ip : String
  mode : String
  ok : Bool
deriving DecidableEq

/-- The token gate `msg.get("token") != TOKEN` passes (i.e. equality holds). -/
def tokenMatches (kvs : List (String × JVal)) (tok : String) : Bool :=
  match objGet kvs "token" with
  | some v => jvalEqStr v tok
  | none => false

/-- The target filter `tgt and tgt != DEVICE_ID` fires (message ignored). -/
def targetBlocks (kvs : List (String × JVal)) (dev : String) : Bool :=
  match objGet kvs "target" with
  | none => false
  | some v => pyTruthy v && !(jvalEqStr v dev)

/-- Holds when `msg.get("cmd","") == c`. -/
def cmdIs (kvs : List (String × JVal)) (c : String) : Bool :=
  jvalEqStr (objGetD kvs "cmd" (JVal.jstr "")) c

/-- set_intensity: clamp the argument to [0,1] and write the 16-bit duty
`int(x * 65535)`. -/
def setIntensityDuty (x : ℚ) : Nat :=
  (pyTrunc ((if x < 0 then 0 else if x > 1 then 1 else x) * 65535)).toNat

/-- start_vibe: apply the intensity and arm the deadline
`ticks_add(ticks_ms(), max(0, int(duration_ms)))`. -/
def startVibe (ms : Int) (inten : ℚ) (t : Nat) : NodeState :=
  { duty := setIntensityDuty inten, activeUntilMs := ticksAddN t (max 0 ms).toNat }

/-- stop_vibe: zero the output and clear the deadline. -/
def stopVibe : NodeState :=
  { duty := 0, activeUntilMs := 0 }

/-- handle_packet. The payload argument is the result of ujson.loads:
none means the bytes were not valid JSON (the one error handle_packet
catches itself). The result is none when an exception escapes
handle_packet (attribute access on a non-object payload, or an
int()/float() conversion failure on the buzz fields); otherwise it is
the new state, the reply datagrams sent, and the milliseconds
handle_packet sleeps (beep) before returning to the receive loop. -/
def handlePacket (env : Env) (payload : Option JVal) (src : String)
    (s : NodeState) (t : Nat) : Option (NodeState × List (String × Reply) × Nat) :=
  match payload with
  | none => some (s, [], 0)
  | some msg =>
    match msg with
    | JVal.jobj kvs =>
      if tokenMatches kvs env.token = false then
        some (s, [], 0)
      else if targetBlocks kvs env.deviceId then
        some (s, [], 0)
      else if cmdIs kvs "buzz" then
        match pyInt (objGetD kvs "duration_ms" (JVal.jint 1000)) with
        | none => none
        | some ms0 =>
          match pyFloat (objGetD kvs "intensity" (JVal.jfloat 1)) with
          | none => none
          | some in0 =>
            let ms : Int := if ms0 < 0 then 0 else if ms0 > 10000 then 10000 else ms0
            let inten : ℚ := if in0 < 0 then 0 else if in0 > 1 then 1 else in0
            let blk : Nat := if pyTruthyOpt (objGet kvs "beep") then 120 else 0
            some (startVibe ms inten t, [], blk)
      else if cmdIs kvs "stop" then
        some (stopVibe, [], 0)
      else if cmdIs kvs "ping" then
        some (s, [(src, { id := env.deviceId, ip := env.ipAddr,
                          mode := modeStr env.sta, ok := true })], 0)
      else
        some (s, [], 0)
    | _ => none

/-- The unconditional end-of-iteration auto-stop check:
`if active_until_ms and ticks_diff(active_until_ms, ticks_ms()) <= 0: stop_vibe()`. -/
def deadlineCheck (s : NodeState) (t : Nat) : NodeState :=
  if s.activeUntilMs ≠ 0 ∧ ticksDiff s.activeUntilMs t ≤ 0 then stopVibe else s

/-- One iteration of the main loop. `recv` is the outcome of the
0.05 s-timeout recvfrom: none when it raised OSError (caught), else the
decoded payload with the sender address. A none result is an exception
escaping the iteration — only OSError is caught, so an error thrown by
handle_packet crashes the loop. `tH` is the tick time at which the
packet is handled, `tC` the tick time of the deadline check. -/
def loopIter (env : Env) (recv : Option (Option JVal × String))
    (s : NodeState) (tH tC : Nat) : Option (NodeState × List (String × Reply) × Nat) :=
  match recv with
  | none => some (deadlineCheck s tC, [], 0)
  | some (payload, src) =>
    match handlePacket env payload src s tH with
    | none => none
    | some (s', sends, blk) => some (deadlineCheck s' tC, sends, blk)

/-- The 32-bit all-ones word, `ipaddress`'s ALL_ONES for IPv4. -/
def IPV4_ALL_ONES : Nat := 2 ^ 32 - 1

/-- calc_broadcast: the broadcast address computed by
ipaddress.IPv4Network(f"{ip}/{mask}", strict=False).broadcast_address,
i.e. the network address (ip AND mask) OR the host mask
(mask XOR all-ones), on 32-bit addresses as naturals. -/
def calcBroadcast (ip mask : Nat) : Nat :=
  (ip &&& mask) ||| (mask ^^^ IPV4_ALL_ONES)

/-- The arithmetic in the spec's words, for comparison with
calcBroadcast: "the address AND NOT mask, then OR mask". -/
def specBroadcastFormula (ip mask : Nat) : Nat :=
  (ip &&& (mask ^^^ IPV4_ALL_ONES)) ||| mask

/-- Python dict assignment `found[addr] = resp`: overwrite the existing
binding in place, else append a new one (dicts preserve insertion order). -/
def dictInsert (d : List (String × String)) (k v : String) : List (String × String) :=
  if d.any (fun p => p.1 = k) then
    d.map (fun p => if p.1 = k then (k, v) else p)
  else d ++ [(k, v)]

/-- The reply-collection loop of discover: fold the reply datagrams
(sender address, reply text) received during the wait window, in
arrival order, into the found dict, starting from the empty dict. -/
def discoverCollect (evs : List (String × String)) : List (String × String) :=
  evs.foldl (fun d e => dictInsert d e.1 e.2) []

/-- Lookup in the ordered-dict model. -/
def dictLookup (d : List (String × String)) (k : String) : Option String :=
  (d.find? (fun p => p.1 = k)).map Prod.snd

/-- The last reply sent by address a during the window, if any. -/
def lastReplyFrom (evs : List (String × String)) (a : String) : Option String :=
  ((evs.filter (fun e => e.1 = a)).map Prod.snd).getLast?

lemma clampQ_if_eq (q : ℚ) :
    (if q < 0 then (0 : ℚ) else if q > 1 then 1 else q) = max 0 (min 1 q) := by
  simp only [min_def, max_def]
  split_ifs <;> linarith

lemma clampI_if_eq (d : Int) :
    (if d < 0 then (0 : Int) else if d > 10000 then 10000 else d) = max 0 (min 10000 d) := by
  split_ifs <;> omega

lemma clampQ_of_clamped (q : ℚ) (h0 : 0 ≤ q) (h1 : q ≤ 1) :
    (if q < 0 then (0 : ℚ) else if q > 1 then 1 else q) = q := by
  split_ifs <;> linarith

lemma setIntensityDuty_clamped (q : ℚ) :
    setIntensityDuty (max 0 (min 1 q)) = (pyTrunc (max 0 (min 1 q) * 65535)).toNat := by
  unfold setIntensityDuty
  rw [clampQ_of_clamped]
  · exact le_max_left 0 _
  · exact max_le (by norm_num) (min_le_left 1 q)

lemma handle_buzz_plain (env : Env) (src : String) (s : NodeState) (t : Nat)
    (d : Int) (q : ℚ) :
    handlePacket env (some (JVal.jobj [("token", JVal.jstr env.token),
        ("cmd", JVal.jstr "buzz"), ("duration_ms", JVal.jint d),
        ("intensity", JVal.jfloat q)])) src s t
      = some ({ duty := (pyTrunc (max 0 (min 1 q) * 65535)).toNat,
                activeUntilMs := ticksAddN t (max 0 (min 10000 d)).toNat }, [], 0) := by
  simp [handlePacket, tokenMatches, targetBlocks, cmdIs, objGet, objGetD, jvalEqStr,
    pyInt, pyFloat, pyTruthyOpt, clampI_if_eq, clampQ_if_eq, startVibe,
    setIntensityDuty_clamped]

/-- C2: for every buzz command, the applied duration is the input
duration_ms clamped to [0, 10000] and the applied intensity is the
input intensity clamped to [0, 1] (duty = int(clamped * 65535), deadline
= ticks_add(now, clamped duration)); out-of-range values are clamped to
the nearest bound and the command is never rejected. -/
theorem buzz_applies_clamped_values (env : Env) (src : String) (s : NodeState)
    (t : Nat) (d : Int) (q : ℚ) :
    handlePacket env (some (JVal.jobj [("token", JVal.jstr env.token),
        ("cmd", JVal.jstr "buzz"), ("duration_ms", JVal.jint d),
        ("intensity", JVal.jfloat q)])) src s t
      = some ({ duty := (pyTrunc (max 0 (min 1 q) * 65535)).toNat,
                activeUntilMs := ticksAddN t (max 0 (min 10000 d)).toNat }, [], 0) :=
  handle_buzz_plain env src s t d q

/-- C5: a second buzz overwrites exactly: whatever the first buzz was
and whatever state the node was in, after processing both commands the
output duty and the deadline are determined by the second command's
clamped parameters and its processing time alone — durations are never
added and nothing is queued. -/
theorem second_buzz_overwrites (env : Env) (src1 src2 : String) (s : NodeState)
    (t1 t2 : Nat) (d1 d2 : Int) (q1 q2 : ℚ) :
    ((handlePacket env (some (JVal.jobj [("token", JVal.jstr env.token),
        ("cmd", JVal.jstr "buzz"), ("duration_ms", JVal.jint d1),
        ("intensity", JVal.jfloat q1)])) src1 s t1).bind
      (fun r => handlePacket env (some (JVal.jobj [("token", JVal.jstr env.token),
        ("cmd", JVal.jstr "buzz"), ("duration_ms", JVal.jint d2),
        ("intensity", JVal.jfloat q2)])) src2 r.1 t2))
      = some ({ duty := (pyTrunc (max 0 (min 1 q2) * 65535)).toNat,
                activeUntilMs := ticksAddN t2 (max 0 (min 10000 d2)).toNat }, [], 0) := by
  rw [handle_buzz_plain]
  simpa using handle_buzz_plain env src2 _ t2 d2 q2

/-- C4: a command whose token does not equal the node's configured token
leaves the state unchanged and sends nothing, whatever cmd says
(including ping). -/
theorem bad_token_no_effect (env : Env) (src : String) (s : NodeState) (t : Nat)
    (kvs : List (String × JVal)) (h : tokenMatches kvs env.token = false) :
    handlePacket env (some (JVal.jobj kvs)) src s t = some (s, [], 0) := by
  simp [handlePacket, h]

theorem bad_token_no_effect_check :
    tokenMatches [("token", JVal.jstr "wrong"), ("cmd", JVal.jstr "ping")] "change-me"
      = false ∧
    handlePacket ⟨"haptic01", "change-me", "10.0.0.2", true⟩
      (some (JVal.jobj [("token", JVal.jstr "wrong"), ("cmd", JVal.jstr "ping")]))
      "peer" ⟨123, 456⟩ 0 = some (⟨123, 456⟩, [], 0) :=
  ⟨by decide,
   bad_token_no_effect ⟨"haptic01", "change-me", "10.0.0.2", true⟩ "peer" ⟨123, 456⟩ 0
     [("token", JVal.jstr "wrong"), ("cmd", JVal.jstr "ping")] (by decide)⟩

lemma cmdIs_unique (kvs : List (String × JVal)) (a b : String) (hab : a ≠ b)
    (h : cmdIs kvs a = true) : cmdIs kvs b = false := by
  unfold cmdIs jvalEqStr at h ⊢
  rcases hv : objGetD kvs "cmd" (JVal.jstr "") with _ | _ | _ | _ | u | _ | _ <;>
    simp_all

/-- C7 (amended): a ping that passes the token and target gates sends
exactly one reply datagram to the sender, leaves the actuation state
unchanged, and the reply carries the node's identifier, its current IP,
ok = true, and a mode field equal to "STA" or "AP" (not "station" /
"access-point" as the spec words it). -/
theorem ping_replies_once (env : Env) (src : String) (s : NodeState)
    (t : Nat) (kvs : List (String × JVal))
    (htok : tokenMatches kvs env.token = true)
    (htgt : targetBlocks kvs env.deviceId = false)
    (hcmd : cmdIs kvs "ping" = true) :
    handlePacket env (some (JVal.jobj kvs)) src s t
      = some (s, [(src, { id := env.deviceId, ip := env.ipAddr,
                          mode := modeStr env.sta, ok := true })], 0) ∧
    (modeStr env.sta = "STA" ∨ modeStr env.sta = "AP") := by
  have hbuzz := cmdIs_unique kvs "ping" "buzz" (by decide) hcmd
  have hstop := cmdIs_unique kvs "ping" "stop" (by decide) hcmd
  constructor
  · simp [handlePacket, htok, htgt, hcmd, hbuzz, hstop]
  · unfold modeStr
    cases env.sta <;> simp

theorem ping_replies_once_check :
    (tokenMatches [("token", JVal.jstr "change-me"), ("cmd", JVal.jstr "ping")]
        "change-me" = true ∧
     targetBlocks [("token", JVal.jstr "change-me"), ("cmd", JVal.jstr "ping")]
        "haptic01" = false ∧
     cmdIs [("token", JVal.jstr "change-me"), ("cmd", JVal.jstr "ping")] "ping" = true) ∧
    (handlePacket ⟨"haptic01", "change-me", "10.0.0.2", true⟩
      (some (JVal.jobj [("token", JVal.jstr "change-me"), ("cmd", JVal.jstr "ping")]))
      "peer" ⟨7, 9⟩ 5
      = some (⟨7, 9⟩, [("peer", { id := "haptic01", ip := "10.0.0.2",
                                  mode := modeStr true, ok := true })], 0) ∧
     (modeStr true = "STA" ∨ modeStr true = "AP")) :=
  ⟨⟨by decide, by decide, by decide⟩,
   ping_replies_once ⟨"haptic01", "change-me", "10.0.0.2", true⟩ "peer" ⟨7, 9⟩ 5
     [("token", JVal.jstr "change-me"), ("cmd", JVal.jstr "ping")]
     (by decide) (by decide) (by decide)⟩

/-- C7 counterexample to the claim as stated: on a node that joined as a
station, the reply's mode field is the string "STA", which is neither
"station" nor "access-point". -/
theorem ping_mode_not_station :
    handlePacket ⟨"haptic01", "change-me", "10.0.0.2", true⟩
      (some (JVal.jobj [("token", JVal.jstr "change-me"), ("cmd", JVal.jstr "ping")]))
      "peer" ⟨0, 0⟩ 0
      = some (⟨0, 0⟩, [("peer", { id := "haptic01", ip := "10.0.0.2",
                                  mode := "STA", ok := true })], 0) ∧
    ¬("STA" = "station" ∨ "STA" = "access-point") := by
  constructor
  · decide
  · decide

/-- C10: a command whose target field is present but equal to the empty
string is treated as if no target filter were present: with a valid
token, ping is answered and buzz is handled exactly as the same message
without the target field, for every node identifier. -/
theorem empty_target_treated_as_absent (env : Env) (src : String) (s : NodeState)
    (t : Nat) (d : Int) (q : ℚ) :
    handlePacket env (some (JVal.jobj [("token", JVal.jstr env.token),
        ("target", JVal.jstr ""), ("cmd", JVal.jstr "ping")])) src s t
      = some (s, [(src, { id := env.deviceId, ip := env.ipAddr,
                          mode := modeStr env.sta, ok := true })], 0) ∧
    handlePacket env (some (JVal.jobj [("token", JVal.jstr env.token),
        ("target", JVal.jstr ""), ("cmd", JVal.jstr "buzz"),
        ("duration_ms", JVal.jint d), ("intensity", JVal.jfloat q)])) src s t
      = handlePacket env (some (JVal.jobj [("token", JVal.jstr env.token),
        ("cmd", JVal.jstr "buzz"), ("duration_ms", JVal.jint d),
        ("intensity", JVal.jfloat q)])) src s t := by
  constructor
  · simp [handlePacket, tokenMatches, targetBlocks, cmdIs, objGet, objGetD,
      jvalEqStr, pyTruthy]
  · rw [handle_buzz_plain]
    simp [handlePacket, tokenMatches, targetBlocks, cmdIs, objGet, objGetD,
      jvalEqStr, pyTruthy, pyInt, pyFloat, pyTruthyOpt, clampI_if_eq, clampQ_if_eq,
      startVibe, setIntensityDuty_clamped]

lemma handle_buzz_beep (env : Env) (src : String) (s : NodeState) (t : Nat)
    (d : Int) (q : ℚ) :
    handlePacket env (some (JVal.jobj [("token", JVal.jstr env.token),
        ("cmd", JVal.jstr "buzz"), ("duration_ms", JVal.jint d),
        ("intensity", JVal.jfloat q), ("beep", JVal.jbool true)])) src s t
      = some ({ duty := (pyTrunc (max 0 (min 1 q) * 65535)).toNat,
                activeUntilMs := ticksAddN t (max 0 (min 10000 d)).toNat }, [], 120) := by
  simp [handlePacket, tokenMatches, targetBlocks, cmdIs, objGet, objGetD, jvalEqStr,
    pyInt, pyFloat, pyTruthyOpt, pyTruthy, clampI_if_eq, clampQ_if_eq, startVibe,
    setIntensityDuty_clamped]

/-- C9 (amended): the beep flag on a buzz leaves the continuous
actuation state and the reply traffic exactly as the same buzz without
the flag — but it is synchronous, not fire-and-forget: handle_packet
sleeps 120 ms (the alert pulse) before the node can receive again. -/
theorem beep_preserves_actuation_but_sleeps (env : Env) (src : String)
    (s : NodeState) (t : Nat) (d : Int) (q : ℚ) :
    handlePacket env (some (JVal.jobj [("token", JVal.jstr env.token),
        ("cmd", JVal.jstr "buzz"), ("duration_ms", JVal.jint d),
        ("intensity", JVal.jfloat q), ("beep", JVal.jbool true)])) src s t
      = (handlePacket env (some (JVal.jobj [("token", JVal.jstr env.token),
          ("cmd", JVal.jstr "buzz"), ("duration_ms", JVal.jint d),
          ("intensity", JVal.jfloat q)])) src s t).map (fun r => (r.1, r.2.1, 120)) ∧
    (handlePacket env (some (JVal.jobj [("token", JVal.jstr env.token),
        ("cmd", JVal.jstr "buzz"), ("duration_ms", JVal.jint d),
        ("intensity", JVal.jfloat q), ("beep", JVal.jbool true)])) src s t).map
        (fun r => r.2.2) = some 120 := by
  rw [handle_buzz_beep, handle_buzz_plain]
  constructor
  · rfl
  · rfl

/-- C9 counterexample to the claim as stated: a buzz with beep makes
handle_packet sleep 120 ms before the loop's next receive — the pulse
does block the next receive. -/
theorem beep_blocks_next_receive :
    (handlePacket ⟨"haptic01", "change-me", "10.0.0.2", true⟩
      (some (JVal.jobj [("token", JVal.jstr "change-me"), ("cmd", JVal.jstr "buzz"),
        ("duration_ms", JVal.jint 1000), ("intensity", JVal.jfloat 1),
        ("beep", JVal.jbool true)])) "peer" ⟨0, 0⟩ 0).map (fun r => r.2.2)
      = some 120 ∧ (120 : Nat) ≠ 0 := by
  constructor
  · rw [show ("change-me" : String)
        = (⟨"haptic01", "change-me", "10.0.0.2", true⟩ : Env).token from rfl,
      handle_buzz_beep]
    rfl
  · decide

/-- C1: a JSON-decodable payload with a valid token whose duration_ms
field is not int()-convertible makes int() raise inside handle_packet;
the main loop catches only OSError, so the error escapes the iteration
and the reactive loop crashes instead of dropping the datagram. -/
theorem nonnumeric_duration_crashes_loop :
    loopIter ⟨"haptic01", "change-me", "10.0.0.2", true⟩
      (some (some (JVal.jobj [("token", JVal.jstr "change-me"),
        ("cmd", JVal.jstr "buzz"), ("duration_ms", JVal.jstr "abc")]), "peer"))
      ⟨0, 0⟩ 0 0 = none := by
  decide

lemma TICKS_PERIOD_val : TICKS_PERIOD = 1073741824 := by
  norm_num [TICKS_PERIOD]

/-- C3 counterexample: buzz(duration_ms = 5000, intensity = 0.0) at tick
1000 is accepted, and the iteration ends with zero output while
active_until (= 6000) is set and strictly in the future: the claimed
equivalence between non-zero output and a live deadline fails. -/
theorem actuation_iff_counterexample :
    loopIter ⟨"haptic01", "change-me", "10.0.0.2", true⟩
      (some (some (JVal.jobj [("token", JVal.jstr "change-me"),
        ("cmd", JVal.jstr "buzz"), ("duration_ms", JVal.jint 5000),
        ("intensity", JVal.jfloat 0)]), "peer"))
      ⟨0, 0⟩ 1000 1000 = some (⟨0, 6000⟩, [], 0) ∧
    ¬(((⟨0, 6000⟩ : NodeState).duty ≠ 0) ↔
      ((⟨0, 6000⟩ : NodeState).activeUntilMs ≠ 0 ∧
        0 < ticksDiff (⟨0, 6000⟩ : NodeState).activeUntilMs 1000)) := by
  constructor
  · have h := handle_buzz_plain ⟨"haptic01", "change-me", "10.0.0.2", true⟩
      "peer" ⟨0, 0⟩ 1000 5000 0
    norm_num [pyTrunc, ticksAddN, TICKS_PERIOD] at h
    simp only [loopIter, h]
    decide
  · decide

lemma deadlineCheck_post (s : NodeState) (t : Nat)
    (h : s.duty ≠ 0 → s.activeUntilMs ≠ 0) :
    (deadlineCheck s t).duty ≠ 0 →
      (deadlineCheck s t).activeUntilMs ≠ 0 ∧
        0 < ticksDiff (deadlineCheck s t).activeUntilMs t := by
  unfold deadlineCheck
  split_ifs with hc
  · intro hd
    simp [stopVibe] at hd
  · intro hd
    refine ⟨h hd, ?_⟩
    by_contra hle
    push_neg at hle
    exact hc ⟨h hd, hle⟩

lemma startVibe_deadline_pos (ms : Int) (q : ℚ) (t : Nat)
    (hms : ms ≤ 10000)
    (hlo : 0 < t % TICKS_PERIOD)
    (hhi : t % TICKS_PERIOD + 10000 < TICKS_PERIOD) :
    (startVibe ms q t).activeUntilMs ≠ 0 := by
  have hk : (max 0 ms).toNat ≤ 10000 := by omega
  simp only [startVibe, ticksAddN, TICKS_PERIOD_val] at *
  omega

lemma handlePacket_keeps_inactive_encoding (env : Env) (payload : Option JVal)
    (src : String) (s : NodeState) (t : Nat)
    (r : NodeState × List (String × Reply) × Nat)
    (hpre : s.duty ≠ 0 → s.activeUntilMs ≠ 0)
    (hlo : 0 < t % TICKS_PERIOD)
    (hhi : t % TICKS_PERIOD + 10000 < TICKS_PERIOD)
    (hrun : handlePacket env payload src s t = some r) :
    r.1.duty ≠ 0 → r.1.activeUntilMs ≠ 0 := by
  cases payload with
  | none =>
    simp only [handlePacket, Option.some.injEq] at hrun
    subst hrun
    exact hpre
  | some msg =>
    cases msg with
    | jobj kvs =>
      simp only [handlePacket] at hrun
      split_ifs at hrun with h1 h2 h3 h4 h5 h6
      · simp only [Option.some.injEq] at hrun; subst hrun; exact hpre
      · simp only [Option.some.injEq] at hrun; subst hrun; exact hpre
      · rcases hmi : pyInt (objGetD kvs "duration_ms" (JVal.jint 1000)) with _ | ms0
        · rw [hmi] at hrun; simp at hrun
        · rw [hmi] at hrun
          rcases hmf : pyFloat (objGetD kvs "intensity" (JVal.jfloat 1)) with _ | in0
          · rw [hmf] at hrun; simp at hrun
          · rw [hmf] at hrun
            simp only [Option.some.injEq] at hrun
            subst hrun
            intro _
            apply startVibe_deadline_pos _ _ t _ hlo hhi
            split_ifs <;> omega
      · rcases hmi : pyInt (objGetD kvs "duration_ms" (JVal.jint 1000)) with _ | ms0
        · rw [hmi] at hrun; simp at hrun
        · rw [hmi] at hrun
          rcases hmf : pyFloat (objGetD kvs "intensity" (JVal.jfloat 1)) with _ | in0
          · rw [hmf] at hrun; simp at hrun
          · rw [hmf] at hrun
            simp only [Option.some.injEq] at hrun
            subst hrun
            intro _
            apply startVibe_deadline_pos _ _ t _ hlo hhi
            split_ifs <;> omega
      · simp only [Option.some.injEq] at hrun; subst hrun
        intro hd
        simp [stopVibe] at hd
      · simp only [Option.some.injEq] at hrun; subst hrun; exact hpre
      · simp only [Option.some.injEq] at hrun; subst hrun; exact hpre
    | jnull => simp [handlePacket] at hrun
    | jbool b => simp [handlePacket] at hrun
    | jint n => simp [handlePacket] at hrun
    | jfloat q => simp [handlePacket] at hrun
    | jstr u => simp [handlePacket] at hrun
    | jarr xs => simp [handlePacket] at hrun

/-- C3 (amended): across one loop iteration that completes without
crashing, non-zero output implies the deadline is set and strictly in
the future at the time of the iteration's auto-stop check — provided
the state already encoded inactivity correctly and the handling time is
not within 10 s of a tick-counter wrap (else the computed deadline can
collide with the inactive sentinel 0). The converse direction of the
spec's "iff" is false: a buzz with intensity 0 arms the deadline while
the output stays 0. -/
theorem actuation_invariant_step (env : Env) (recv : Option (Option JVal × String))
    (s s' : NodeState) (sends : List (String × Reply)) (blk : Nat) (tH tC : Nat)
    (hpre : s.duty ≠ 0 → s.activeUntilMs ≠ 0)
    (hlo : 0 < tH % TICKS_PERIOD)
    (hhi : tH % TICKS_PERIOD + 10000 < TICKS_PERIOD)
    (hrun : loopIter env recv s tH tC = some (s', sends, blk)) :
    s'.duty ≠ 0 → s'.activeUntilMs ≠ 0 ∧ 0 < ticksDiff s'.activeUntilMs tC := by
  cases recv with
  | none =>
    simp only [loopIter, Option.some.injEq, Prod.mk.injEq] at hrun
    obtain ⟨rfl, -, -⟩ := hrun
    exact deadlineCheck_post s tC hpre
  | some pr =>
    obtain ⟨payload, src⟩ := pr
    simp only [loopIter] at hrun
    rcases hp : handlePacket env payload src s tH with _ | ⟨r1, r2, r3⟩
    · rw [hp] at hrun; simp at hrun
    · rw [hp] at hrun
      simp only [Option.some.injEq, Prod.mk.injEq] at hrun
      obtain ⟨rfl, -, -⟩ := hrun
      exact deadlineCheck_post r1 tC
        (handlePacket_keeps_inactive_encoding env payload src s tH (r1, r2, r3)
          hpre hlo hhi hp)

theorem actuation_invariant_step_check :
    (((⟨0, 0⟩ : NodeState).duty ≠ 0 → (⟨0, 0⟩ : NodeState).activeUntilMs ≠ 0) ∧
     0 < 1000 % TICKS_PERIOD ∧ 1000 % TICKS_PERIOD + 10000 < TICKS_PERIOD ∧
     loopIter ⟨"haptic01", "change-me", "10.0.0.2", true⟩
       (some (some (JVal.jobj [("token", JVal.jstr "change-me"),
         ("cmd", JVal.jstr "buzz"), ("duration_ms", JVal.jint 500),
         ("intensity", JVal.jfloat 1)]), "peer"))
       ⟨0, 0⟩ 1000 1000 = some (⟨65535, 1500⟩, [], 0)) ∧
    ((⟨65535, 1500⟩ : NodeState).duty ≠ 0 →
      (⟨65535, 1500⟩ : NodeState).activeUntilMs ≠ 0 ∧
        0 < ticksDiff (⟨65535, 1500⟩ : NodeState).activeUntilMs 1000) := by
  have hrun : loopIter ⟨"haptic01", "change-me", "10.0.0.2", true⟩
      (some (some (JVal.jobj [("token", JVal.jstr "change-me"),
        ("cmd", JVal.jstr "buzz"), ("duration_ms", JVal.jint 500),
        ("intensity", JVal.jfloat 1)]), "peer"))
      ⟨0, 0⟩ 1000 1000 = some (⟨65535, 1500⟩, [], 0) := by
    have h := handle_buzz_plain ⟨"haptic01", "change-me", "10.0.0.2", true⟩
      "peer" ⟨0, 0⟩ 1000 500 1
    norm_num [pyTrunc, ticksAddN, TICKS_PERIOD] at h
    simp only [loopIter, h]
    decide
  refine ⟨⟨by simp, by decide, by decide, hrun⟩, ?_⟩
  exact actuation_invariant_step ⟨"haptic01", "change-me", "10.0.0.2", true⟩
    (some (some (JVal.jobj [("token", JVal.jstr "change-me"),
      ("cmd", JVal.jstr "buzz"), ("duration_ms", JVal.jint 500),
      ("intensity", JVal.jfloat 1)]), "peer"))
    ⟨0, 0⟩ ⟨65535, 1500⟩ [] 0 1000 1000 (by simp) (by decide) (by decide) hrun

/-- C6 counterexample: at the repository's own defaults
(192.168.86.239 / 255.255.255.0) the controller computes 192.168.86.255
(3232257791), while the spec's stated arithmetic "address AND NOT mask,
then OR mask" yields 255.255.255.239 (4294967279): the stated formula
does not describe the computed broadcast address. -/
theorem broadcast_formula_refuted :
    calcBroadcast 3232257775 4294967040 = 3232257791 ∧
    specBroadcastFormula 3232257775 4294967040 = 4294967279 ∧
    calcBroadcast 3232257775 4294967040 ≠ specBroadcastFormula 3232257775 4294967040 := by
  refine ⟨by decide, by decide, by decide⟩

/-- C6 (amended): the controller's computed broadcast address is the
all-ones-host broadcast obtained by the address AND mask, then OR NOT
mask: within the 32-bit word it copies the address on network bits
(mask bit set) and is all ones on host bits (mask bit clear). -/
theorem broadcast_bits (ip mask i : Nat) (h : i < 32) :
    (Nat.testBit mask i = true →
      Nat.testBit (calcBroadcast ip mask) i = Nat.testBit ip i) ∧
    (Nat.testBit mask i = false → Nat.testBit (calcBroadcast ip mask) i = true) := by
  have hOnes : Nat.testBit IPV4_ALL_ONES i = decide (i < 32) := by
    unfold IPV4_ALL_ONES
    exact Nat.testBit_two_pow_sub_one 32 i
  constructor <;> intro hm <;>
    simp [calcBroadcast, Nat.testBit_lor, Nat.testBit_land,
      Nat.testBit_xor, hOnes, hm, h]

theorem broadcast_bits_check :
    (0 < 32) ∧
    ((Nat.testBit 4294967040 0 = true →
       Nat.testBit (calcBroadcast 3232257775 4294967040) 0 = Nat.testBit 3232257775 0) ∧
     (Nat.testBit 4294967040 0 = false →
       Nat.testBit (calcBroadcast 3232257775 4294967040) 0 = true)) :=
  ⟨by decide, broadcast_bits 3232257775 4294967040 0 (by decide)⟩

lemma any_key_iff (d : List (String × String)) (k : String) :
    d.any (fun p => p.1 = k) = true ↔ k ∈ d.map Prod.fst := by
  simp [List.any_eq_true, List.mem_map]

lemma dictInsert_keys (d : List (String × String)) (k v : String) :
    (dictInsert d k v).map Prod.fst =
      if k ∈ d.map Prod.fst then d.map Prod.fst else d.map Prod.fst ++ [k] := by
  unfold dictInsert
  by_cases h : d.any (fun p => p.1 = k) = true
  · rw [if_pos h, if_pos ((any_key_iff d k).mp h), List.map_map]
    apply List.map_congr_left
    intro p _
    by_cases hpk : p.1 = k
    · simp [hpk]
    · simp [hpk]
  · rw [if_neg h, if_neg (fun hm => h ((any_key_iff d k).mpr hm))]
    simp

lemma dictInsert_nodup (d : List (String × String)) (k v : String)
    (h : (d.map Prod.fst).Nodup) : ((dictInsert d k v).map Prod.fst).Nodup := by
  rw [dictInsert_keys]
  split_ifs with hk
  · exact h
  · rw [List.nodup_append]
    refine ⟨h, by simp, ?_⟩
    intro x hx hxk
    simp only [List.mem_singleton] at hxk
    subst hxk
    exact hk hx

lemma find?_overwrite_ne (d : List (String × String)) (k v a : String)
    (hne : a ≠ k) :
    (d.map (fun p => if p.1 = k then (k, v) else p)).find? (fun p => p.1 = a)
      = d.find? (fun p => p.1 = a) := by
  induction d with
  | nil => rfl
  | cons p ds ih =>
    by_cases hpk : p.1 = k
    · rw [List.map_cons, if_pos hpk,
        List.find?_cons_of_neg _ (by simp [Ne.symm hne]),
        List.find?_cons_of_neg _ (by simp [hpk, Ne.symm hne])]
      exact ih
    · rw [List.map_cons, if_neg hpk]
      by_cases hpa : p.1 = a
      · rw [List.find?_cons_of_pos _ (by simp [hpa]),
          List.find?_cons_of_pos _ (by simp [hpa])]
      · rw [List.find?_cons_of_neg _ (by simp [hpa]),
          List.find?_cons_of_neg _ (by simp [hpa])]
        exact ih

lemma find?_overwrite_self (d : List (String × String)) (k v : String)
    (hany : d.any (fun p => p.1 = k) = true) :
    (d.map (fun p => if p.1 = k then (k, v) else p)).find? (fun p => p.1 = k)
      = some (k, v) := by
  induction d with
  | nil => simp at hany
  | cons p ds ih =>
    by_cases hpk : p.1 = k
    · rw [List.map_cons, if_pos hpk, List.find?_cons_of_pos _ (by simp)]
    · have hany2 : ds.any (fun p => p.1 = k) = true := by
        simp [hpk] at hany
        simpa using hany
      rw [List.map_cons, if_neg hpk, List.find?_cons_of_neg _ (by simp [hpk])]
      exact ih hany2

lemma dictLookup_insert_self (d : List (String × String)) (k v : String) :
    dictLookup (dictInsert d k v) k = some v := by
  unfold dictInsert dictLookup
  by_cases h : d.any (fun p => p.1 = k) = true
  · rw [if_pos h, find?_overwrite_self d k v h]
    rfl
  · rw [if_neg h]
    have hnone : d.find? (fun p => p.1 = k) = none := by
      rw [List.find?_eq_none]
      intro x hx
      simp only [decide_eq_true_eq]
      intro hxk
      exact h (List.any_eq_true.mpr ⟨x, hx, by simp [hxk]⟩)
    simp [List.find?_append, hnone]

lemma dictLookup_insert_ne (d : List (String × String)) (k v a : String)
    (hne : a ≠ k) :
    dictLookup (dictInsert d k v) a = dictLookup d a := by
  unfold dictInsert dictLookup
  by_cases h : d.any (fun p => p.1 = k) = true
  · rw [if_pos h, find?_overwrite_ne d k v a hne]
  · rw [if_neg h, List.find?_append]
    have hlast : ([(k, v)].find? (fun p => p.1 = a)) = none := by
      simp [Ne.symm hne]
    simp [hlast]

lemma discoverCollect_concat (evs : List (String × String)) (e : String × String) :
    discoverCollect (evs ++ [e]) = dictInsert (discoverCollect evs) e.1 e.2 := by
  simp [discoverCollect]

lemma lastReplyFrom_concat (evs : List (String × String)) (e : String × String)
    (a : String) :
    lastReplyFrom (evs ++ [e]) a
      = if e.1 = a then some e.2 else lastReplyFrom evs a := by
  unfold lastReplyFrom
  by_cases he : e.1 = a
  · simp [List.filter_append, he, List.getLast?_concat]
  · simp [List.filter_append, he]

lemma discover_keys_nodup (evs : List (String × String)) :
    ((discoverCollect evs).map Prod.fst).Nodup := by
  induction evs using List.reverseRecOn with
  | nil => simp [discoverCollect]
  | append_singleton evs e ih =>
    rw [discoverCollect_concat]
    exact dictInsert_nodup _ _ _ ih

lemma discover_lookup_eq_last (evs : List (String × String)) (a : String) :
    dictLookup (discoverCollect evs) a = lastReplyFrom evs a := by
  induction evs using List.reverseRecOn with
  | nil => simp [discoverCollect, dictLookup, lastReplyFrom]
  | append_singleton evs e ih =>
    rw [discoverCollect_concat, lastReplyFrom_concat]
    by_cases he : e.1 = a
    · subst he
      rw [if_pos rfl]
      exact dictLookup_insert_self _ _ _
    · rw [if_neg he, dictLookup_insert_ne _ _ _ _ (fun hh => he hh.symm)]
      exact ih

lemma lastReplyFrom_eq_none_iff (evs : List (String × String)) (a : String) :
    lastReplyFrom evs a = none ↔ a ∉ evs.map Prod.fst := by
  unfold lastReplyFrom
  simp only [List.getLast?_eq_none_iff, List.map_eq_nil_iff, List.filter_eq_nil_iff,
    List.mem_map, decide_eq_true_eq]
  constructor
  · rintro h ⟨p, hp, hpa⟩
    exact h p hp hpa
  · intro h p hp hpa
    exact h ⟨p, hp, hpa⟩

/-- C8: folding the reply datagrams received during the wait window into
the found dict gives a mapping in which every distinct responding
address appears exactly once (keys are nodup), the value recorded for an
address is its last reply of the window, and an address that never
replied is simply absent; the collection is total — no reply sequence
(including the empty one) produces an error. -/
theorem discover_records_last_reply_per_address (evs : List (String × String))
    (a : String) :
    ((discoverCollect evs).map Prod.fst).Nodup ∧
    dictLookup (discoverCollect evs) a = lastReplyFrom evs a ∧
    (dictLookup (discoverCollect evs) a = none ↔ a ∉ evs.map Prod.fst) := by
  refine ⟨discover_keys_nodup evs, discover_lookup_eq_last evs a, ?_⟩
  rw [discover_lookup_eq_last]
  exact lastReplyFrom_eq_none_iff evs a
